import Mathlib

set_option maxRecDepth 8192

/-!
Verification of the jogadores-footure scraping/normalization/retrieval core
against its natural-language specification.

The Python sources under `src/scraper/` are shallowly embedded below:
JSON trees become the inductive type `Json`; Python truthiness, `dict.get`,
`or` short-circuiting and attribute errors are modelled explicitly; fallible
Python code (code that can raise) returns `Except PyErr _`.
-/

namespace Sofa

/-- A JSON tree as manipulated by the Python code: `null`/`None`, booleans,
numbers, strings, arrays (Python lists) and objects (Python dicts, modelled
as insertion-ordered association lists). -/
inductive Json where
  | null : Json
  | bool (b : Bool) : Json
  | num (n : Int) : Json
  | str (s : String) : Json
  | arr (elems : List Json) : Json
  | obj (fields : List (String × Json)) : Json

/-- Python truthiness of a JSON value: `None`, `False`, `0`, `""`, `[]` and
an empty dict are falsy, everything else is truthy. -/
def truthy : Json → Bool
  | .null => false
  | .bool b => b
  | .num n => n != 0
  | .str s => s != ""
  | .arr xs => !xs.isEmpty
  | .obj kvs => !kvs.isEmpty

/-- First-occurrence lookup in an association list (Python dict access;
dicts built by the code never repeat keys). -/
def jlookup : List (String × Json) → String → Option Json
  | [], _ => none
  | (k, v) :: rest, key => if k = key then some v else jlookup rest key

/-- Python `a or b` on values already computed (no short-circuit effect):
the first operand when truthy, otherwise the second. -/
def pyOr (a b : Json) : Json :=
  if truthy a then a else b

/-- The JsonCleaner's removal key set (a Python `set`, used only through
membership tests, so a list of names suffices). -/
abbrev KeySet := List String

mutual

/-- `JsonCleaner.clean_data` (cleaner.py lines 19-35): in a dict, drop every
key in the removal set and recurse into the remaining values; in a list,
recurse into every element; scalars are returned untouched. -/
def clean_data (K : KeySet) : Json → Json
  | .obj kvs => .obj (cleanFields K kvs)
  | .arr xs => .arr (cleanElems K xs)
  | j => j

/-- Field-list part of `clean_data`: delete fields keyed in `K`, clean the
values of the kept ones, preserving order. -/
def cleanFields (K : KeySet) : List (String × Json) → List (String × Json)
  | [] => []
  | (k, v) :: rest =>
      if k ∈ K then cleanFields K rest
      else (k, clean_data K v) :: cleanFields K rest

/-- Element-list part of `clean_data`: clean every element of a list. -/
def cleanElems (K : KeySet) : List Json → List Json
  | [] => []
  | x :: xs => clean_data K x :: cleanElems K xs

end

mutual

/-- `keyOccurs k j` holds when `k` appears as an object key anywhere in `j`,
at any depth. -/
def keyOccurs (k : String) : Json → Bool
  | .obj kvs => keyOccursFields k kvs
  | .arr xs => keyOccursElems k xs
  | _ => false

/-- Field-list part of `keyOccurs`. -/
def keyOccursFields (k : String) : List (String × Json) → Bool
  | [] => false
  | (k', v) :: rest => k' == k || keyOccurs k v || keyOccursFields k rest

/-- Element-list part of `keyOccurs`. -/
def keyOccursElems (k : String) : List Json → Bool
  | [] => false
  | x :: xs => keyOccurs k x || keyOccursElems k xs

end

mutual

theorem keyOccurs_clean_data (K : KeySet) (k : String) (hk : k ∈ K) :
    ∀ j, keyOccurs k (clean_data K j) = false
  | .null => rfl
  | .bool _ => rfl
  | .num _ => rfl
  | .str _ => rfl
  | .arr xs => by
      simp only [clean_data, keyOccurs]
      exact keyOccurs_cleanElems K k hk xs
  | .obj kvs => by
      simp only [clean_data, keyOccurs]
      exact keyOccurs_cleanFields K k hk kvs

theorem keyOccurs_cleanFields (K : KeySet) (k : String) (hk : k ∈ K) :
    ∀ kvs, keyOccursFields k (cleanFields K kvs) = false
  | [] => rfl
  | (k', v) :: rest => by
      by_cases h : k' ∈ K
      · simp only [cleanFields, if_pos h]
        exact keyOccurs_cleanFields K k hk rest
      · simp only [cleanFields, if_neg h, keyOccursFields]
        have hne : (k' == k) = false := by
          simp only [beq_eq_false_iff_ne]
          intro he
          exact h (he ▸ hk)
        rw [hne, keyOccurs_clean_data K k hk v, keyOccurs_cleanFields K k hk rest]
        rfl

theorem keyOccurs_cleanElems (K : KeySet) (k : String) (hk : k ∈ K) :
    ∀ xs, keyOccursElems k (cleanElems K xs) = false
  | [] => rfl
  | x :: xs => by
      simp only [cleanElems, keyOccursElems]
      rw [keyOccurs_clean_data K k hk x, keyOccurs_cleanElems K k hk xs]
      rfl

end

mutual

theorem clean_data_idem (K : KeySet) :
    ∀ j, clean_data K (clean_data K j) = clean_data K j
  | .null => rfl
  | .bool _ => rfl
  | .num _ => rfl
  | .str _ => rfl
  | .arr xs => by
      simp only [clean_data]
      rw [cleanElems_idem K xs]
  | .obj kvs => by
      simp only [clean_data]
      rw [cleanFields_idem K kvs]

theorem cleanFields_idem (K : KeySet) :
    ∀ kvs, cleanFields K (cleanFields K kvs) = cleanFields K kvs
  | [] => rfl
  | (k, v) :: rest => by
      by_cases h : k ∈ K
      · simp only [cleanFields, if_pos h]
        exact cleanFields_idem K rest
      · simp only [cleanFields, if_neg h]
        rw [clean_data_idem K v, cleanFields_idem K rest]

theorem cleanElems_idem (K : KeySet) :
    ∀ xs, cleanElems K (cleanElems K xs) = cleanElems K xs
  | [] => rfl
  | x :: xs => by
      simp only [cleanElems]
      rw [clean_data_idem K x, cleanElems_idem K xs]

end

/-- Scenario B input tree from the spec. -/
def scenarioB : Json :=
  .obj [("teams", .obj [("home", .obj [("slug", .str "abc"), ("name", .str "X")])])]

/-- Scenario B expected output tree. -/
def scenarioBCleaned : Json :=
  .obj [("teams", .obj [("home", .obj [("name", .str "X")])])]

/-- C5: for every JSON tree and every removal key set K, no key in K appears
anywhere, at any depth, in the output of clean_data; in particular, cleaning
the scenario-B tree with removal set containing exactly "slug" yields the tree
with every "slug" field dropped and everything else intact. -/
theorem cleaner_removes_keys_everywhere :
    (∀ (K : KeySet) (j : Json) (k : String), k ∈ K →
        keyOccurs k (clean_data K j) = false) ∧
      clean_data ["slug"] scenarioB = scenarioBCleaned := by
  constructor
  · intro K j k hk
    exact keyOccurs_clean_data K k hk j
  · simp [clean_data, cleanFields, cleanElems, scenarioB, scenarioBCleaned]

/-- Witness for `cleaner_removes_keys_everywhere`: instantiates the general
statement on the scenario-B tree and the key "slug". -/
theorem cleaner_removes_keys_everywhere_witness :
    ("slug" ∈ (["slug"] : KeySet)) ∧
      keyOccurs "slug" (clean_data ["slug"] scenarioB) = false :=
  ⟨by simp, cleaner_removes_keys_everywhere.1 ["slug"] scenarioB "slug" (by simp)⟩

/-- C6: the cleaner is idempotent: applying clean_data twice produces the same
result as applying it once, for every JSON tree and every removal key set. -/
theorem cleaner_idempotent :
    ∀ (K : KeySet) (j : Json), clean_data K (clean_data K j) = clean_data K j :=
  fun K j => clean_data_idem K j

/-! ## Python evaluation model for the fallible code

The scraper accesses loosely-structured payloads with `dict.get`; calling
`.get` on a non-dict raises `AttributeError`, iterating a non-iterable raises
`TypeError`, and so on. Fallible code is embedded in `Except PyErr`. -/

/-- Python exceptions relevant to the embedded code. -/
inductive PyErr where
  | attrError : PyErr
  | typeError : PyErr
  | unboundLocal : PyErr
  | dbError : PyErr

/-- Python `receiver.get(key, default)`: returns the stored value (even when
it is `None`) if the key is present, the default otherwise; raises
`AttributeError` when the receiver is not a dict. -/
def pyGet (j : Json) (key : String) (dflt : Json) : Except PyErr Json :=
  match j with
  | .obj kvs => .ok ((jlookup kvs key).getD dflt)
  | _ => .error .attrError

/-- `safe_get(d, path, default=None)` (scraper.py lines 64-71) over the
already-split dotted path (`path.split(".")` is applied at every call site
below): walk the path, stepping only while the current node is a dict
containing the part; otherwise return the default `None`. Total, exactly
like the Python. -/
def safe_get : Json → List String → Json
  | j, [] => j
  | .obj kvs, p :: rest =>
      match jlookup kvs p with
      | some v => safe_get v rest
      | none => .null
  | _, _ :: _ => .null

/-- Python `a or b` where evaluating `b` itself may raise: `b` is evaluated
only when `a` is falsy (short-circuit). -/
def pyOrE (a : Json) (b : Except PyErr Json) : Except PyErr Json :=
  if truthy a then .ok a else b

/-- Python iteration `for x in j`: lists yield their elements, dicts their
keys, strings their characters; other values raise `TypeError`. -/
def pyIter (j : Json) : Except PyErr (List Json) :=
  match j with
  | .arr xs => .ok xs
  | .obj kvs => .ok (kvs.map (fun p => Json.str p.1))
  | .str s => .ok (s.toList.map (fun c => Json.str (String.mk [c])))
  | _ => .error .typeError

/-- Python `d[k] = v` on an insertion-ordered dict: overwrite in place when
the key exists, append otherwise. -/
def dictSet : List (String × Json) → String → Json → List (String × Json)
  | [], k, v => [(k, v)]
  | (k', v') :: rest, k, v =>
      if k' = k then (k', v) :: rest else (k', v') :: dictSet rest k v

mutual

/-- Python `repr` of a JSON-shaped value (string-escape details elided). -/
def pyRepr : Json → String
  | .null => "None"
  | .bool true => "True"
  | .bool false => "False"
  | .num n => toString n
  | .str s => "'" ++ s ++ "'"
  | .arr xs => "[" ++ pyReprElems xs ++ "]"
  | .obj kvs => "\x7b" ++ pyReprFields kvs ++ "\x7d"

/-- Comma-joined `repr`s of list elements. -/
def pyReprElems : List Json → String
  | [] => ""
  | [x] => pyRepr x
  | x :: xs => pyRepr x ++ ", " ++ pyReprElems xs

/-- Comma-joined `repr`s of dict fields. -/
def pyReprFields : List (String × Json) → String
  | [] => ""
  | [(k, v)] => "'" ++ k ++ "': " ++ pyRepr v
  | (k, v) :: kvs => "'" ++ k ++ "': " ++ pyRepr v ++ ", " ++ pyReprFields kvs

end

/-- Python `str()` of a JSON-shaped value: strings are returned bare,
everything else falls back to `repr`. -/
def pyStr (j : Json) : String :=
  match j with
  | .str s => s
  | _ => pyRepr j

/-- Python `value.strip()`: whitespace-trims a string, raises
`AttributeError` on anything else. -/
def pyStrip (j : Json) : Except PyErr String :=
  match j with
  | .str s => .ok s.trim
  | _ => .error .attrError

/-- Total path lookup used to state claims about produced trees: descend
through object fields, `none` when a step is missing or not an object. -/
def jpath (j : Json) (path : List String) : Option Json :=
  path.foldl
    (fun acc p => acc.bind (fun x =>
      match x with
      | .obj kvs => jlookup kvs p
      | _ => none))
    (some j)

/-- Whether the top level of a value is an object carrying the given key. -/
def hasKey (j : Json) (k : String) : Bool :=
  match j with
  | .obj kvs => (jlookup kvs k).isSome
  | _ => false

/-- Destructuring principle for `Except` bind chains (the shape every
embedded `do` block compiles to). -/
theorem bind_ok {α β : Type} {x : Except PyErr α} {f : α → Except PyErr β} {b : β}
    (h : x >>= f = Except.ok b) : ∃ a, x = Except.ok a ∧ f a = Except.ok b := by
  cases x with
  | error e => exact absurd h (by simp [Bind.bind, Except.bind])
  | ok a => exact ⟨a, rfl, by simpa [Bind.bind, Except.bind] using h⟩

/-! ## Match normalizer (scraper.py lines 182-328) -/

/-- The `TeamRef` dataclass (scraper.py lines 182-187). -/
structure TeamRef where
  id : Json
  name : Json
  slug : Json

/-- `extract_team_ref` (scraper.py lines 189-194): id, full name falling back
to short name, slug. -/
def extract_team_ref (team : Json) : Except PyErr TeamRef := do
  let tid ← pyGet team "id" .null
  let n1 ← pyGet team "name" .null
  let name ← pyOrE n1 (pyGet team "shortName" .null)
  let slug ← pyGet team "slug" .null
  .ok ⟨tid, name, slug⟩

/-- Inner item loop of `flatten_team_stats`: fold the named items of one
group into the per-team accumulators. -/
def flattenItems : List Json → List (String × Json) × List (String × Json) →
    Except PyErr (List (String × Json) × List (String × Json))
  | [], acc => .ok acc
  | it :: rest, (h, a) => do
      let n1 ← pyGet it "name" .null
      let n2 ← pyOrE n1 (pyGet it "title" .null)
      let name ← pyStrip (pyOr n2 (.str ""))
      let homeV ← pyGet it "home" .null
      let awayV ← pyGet it "away" .null
      if name = "" then flattenItems rest (h, a)
      else flattenItems rest (dictSet h name homeV, dictSet a name awayV)

/-- Group loop of `flatten_team_stats`. -/
def flattenGroups : List Json → List (String × Json) × List (String × Json) →
    Except PyErr (List (String × Json) × List (String × Json))
  | [], acc => .ok acc
  | g :: rest, acc => do
      let i1 ← pyGet g "statisticsItems" .null
      let i2 ← pyOrE i1 (pyGet g "items" .null)
      let items ← pyIter (pyOr i2 (.arr []))
      let acc' ← flattenItems items acc
      flattenGroups rest acc'

/-- `flatten_team_stats` (scraper.py lines 197-217): flatten grouped
statistics into one name-to-value map per team, injecting a synthetic "xG"
entry when the payload carries a top-level `expectedGoals` block. -/
def flatten_team_stats (stats : Json) : Except PyErr Json := do
  let g1 ← pyGet stats "statistics" .null
  let g2 ← pyOrE g1 (pyGet stats "groups" .null)
  let groups ← pyIter (pyOr g2 (.arr []))
  let acc ← flattenGroups groups ([], [])
  match stats with
  | .obj kvs =>
      match jlookup kvs "expectedGoals" with
      | some xg => do
          let xh ← pyGet xg "home" .null
          let xa ← pyGet xg "away" .null
          .ok (.obj [("home", .obj (dictSet acc.1 "xG" xh)),
                     ("away", .obj (dictSet acc.2 "xG" xa))])
      | none => .ok (.obj [("home", .obj acc.1), ("away", .obj acc.2)])
  | _ => .error .attrError

/-- A Python `for` loop that appends one produced record per iteration and
propagates any raised exception (used by `lineup_to_players`). -/
def mapME (f : Json → Except PyErr Json) : List Json → Except PyErr (List Json)
  | [] => .ok []
  | x :: xs => do
      let y ← f x
      let ys ← mapME f xs
      .ok (y :: ys)

/-- Loop body of `lineup_to_players` (scraper.py lines 224-238): one lineup
entry to one canonical player record; an empty (or falsy) per-player
statistics value becomes `None`. -/
def player_of_entry (pl : Json) : Except PyErr Json := do
  let pRaw ← pyGet pl "player" .null
  let player := pyOr pRaw (.obj [])
  let sRaw ← pyGet pl "statistics" .null
  let stat := pyOr sRaw (.obj [])
  let pid ← pyGet player "id" .null
  let pname ← pyGet player "name" .null
  let pslug ← pyGet player "slug" .null
  let shirt ← pyGet pl "shirtNumber" .null
  let pos ← pyGet pl "position" .null
  let capt ← pyGet pl "captain" .null
  let rating ← pyOrE (safe_get pl ["rating", "rating"]) (pyGet pl "rating" .null)
  .ok (.obj [("id", pid), ("name", pname), ("slug", pslug),
             ("shirtNumber", shirt), ("position", pos), ("captain", capt),
             ("rating", rating), ("statistics", pyOr stat .null)])

/-- `lineup_to_players` (scraper.py lines 220-239). -/
def lineup_to_players (block : Json) : Except PyErr (List Json) :=
  if truthy block = false then .ok []
  else do
    let playersVal ← pyGet block "players" (.arr [])
    let entries ← pyIter playersVal
    mapME player_of_entry entries

/-- Team-statistics step of `build_match_json` (scraper.py line 262):
flatten when a statistics payload is present (truthy), empty maps
otherwise. -/
def teamStatsOf (statistics : Json) : Except PyErr Json :=
  if truthy statistics then flatten_team_stats statistics
  else .ok (.obj [("home", .obj []), ("away", .obj [])])

/-- `build_match_json` (scraper.py lines 242-328): the pure normalizer from
the four raw payloads to the canonical match record. `None` arguments are
passed as `Json.null`. Binds follow the Python evaluation order. -/
def build_match_json (core lineups statistics incidents : Json) :
    Except PyErr Json := do
  let event ← pyGet core "event" core
  let htRaw ← pyGet event "homeTeam" (.obj [])
  let ht ← extract_team_ref htRaw
  let atRaw ← pyGet event "awayTeam" (.obj [])
  let at_ ← extract_team_ref atRaw
  let r1 ← pyGet event "roundInfo" .null
  let r2 ← pyOrE r1 (pyGet event "round" .null)
  let round_info := pyOr r2 (.obj [])
  let s1 ← pyGet event "season" .null
  let season := pyOr s1 (.obj [])
  let t1 ← pyGet event "tournament" .null
  let t2 ← pyOrE t1 (pyGet event "uniqueTournament" .null)
  let tournament := pyOr t2 (.obj [])
  let home_score := pyOr (safe_get event ["homeScore", "current"])
    (safe_get event ["homeScore", "normaltime"])
  let away_score := pyOr (safe_get event ["awayScore", "current"])
    (safe_get event ["awayScore", "normaltime"])
  let team_stats ← teamStatsOf statistics
  let lu_home := pyOr (safe_get (pyOr lineups (.obj [])) ["home"]) (.obj [])
  let lu_away := pyOr (safe_get (pyOr lineups (.obj [])) ["away"]) (.obj [])
  let eid ← pyGet event "id" .null
  let slug ← pyGet event "slug" .null
  let status := pyOr (safe_get event ["status", "description"])
    (safe_get event ["status", "type"])
  let startTs ← pyGet event "startTimestamp" .null
  let referee ← pyGet event "referee" .null
  let venue ← pyGet event "venue" .null
  let roundId ← pyGet round_info "round" .null
  let rn1 ← pyGet round_info "name" .null
  let rn2 ← pyOrE rn1 (pyGet round_info "round" .null)
  let roundName := pyOr rn2 .null
  let seasonId ← pyGet season "id" .null
  let seasonName ← pyGet season "name" .null
  let seasonYear ← pyGet season "year" .null
  let tournId ← pyOrE (safe_get tournament ["uniqueTournament", "id"])
    (pyGet tournament "id" .null)
  let tn1 ← pyGet tournament "name" .null
  let tournName := pyOr tn1 (safe_get tournament ["uniqueTournament", "name"])
  let startingXIh ← lineup_to_players (pyOr (safe_get lu_home ["startingLineups"]) (.obj []))
  let benchH ← lineup_to_players (pyOr (safe_get lu_home ["substitutes"]) (.obj []))
  let statsH ← pyGet team_stats "home" (.obj [])
  let startingXIa ← lineup_to_players (pyOr (safe_get lu_away ["startingLineups"]) (.obj []))
  let benchA ← lineup_to_players (pyOr (safe_get lu_away ["substitutes"]) (.obj []))
  let statsA ← pyGet team_stats "away" (.obj [])
  let inc1 ← pyGet (pyOr incidents (.obj [])) "incidents" .null
  let incVal := pyOr inc1 (pyOr incidents (.arr []))
  .ok (.obj [
    ("eventId", eid),
    ("slug", slug),
    ("status", status),
    ("startTimestamp", startTs),
    ("referee", referee),
    ("venue", venue),
    ("round", .obj [("id", roundId), ("name", roundName)]),
    ("season", .obj [("id", seasonId), ("name", seasonName), ("year", seasonYear)]),
    ("tournament", .obj [("id", tournId), ("name", tournName),
      ("category", safe_get tournament ["category", "name"])]),
    ("score", .obj [("home", home_score), ("away", away_score),
      ("penalties", .obj [("home", safe_get event ["homeScore", "penalties"]),
                          ("away", safe_get event ["awayScore", "penalties"])])]),
    ("teams", .obj [
      ("home", .obj [("id", ht.id), ("name", ht.name), ("slug", ht.slug),
        ("formation", safe_get lu_home ["formation"]),
        ("coach", safe_get lu_home ["coach", "name"]),
        ("startingXI", .arr startingXIh), ("bench", .arr benchH),
        ("statistics", statsH)]),
      ("away", .obj [("id", at_.id), ("name", at_.name), ("slug", at_.slug),
        ("formation", safe_get lu_away ["formation"]),
        ("coach", safe_get lu_away ["coach", "name"]),
        ("startingXI", .arr startingXIa), ("bench", .arr benchA),
        ("statistics", statsA)])]),
    ("incidents", incVal),
    ("raw", .obj [("core", event), ("lineups", lineups),
                  ("statistics", statistics), ("incidents", incidents)])])

/-- The envelope unwrapping `core.get("event", core)` as a total function on
the inputs where the Python call succeeds. -/
def unwrapCore (c : Json) : Json :=
  (jpath c ["event"]).getD c

theorem pyGet_self_ok {c v : Json} {k : String} (h : pyGet c k c = .ok v) :
    v = (jpath c [k]).getD c := by
  cases c with
  | obj kvs =>
      simp only [pyGet, Except.ok.injEq] at h
      subst h
      cases hl : jlookup kvs k with
      | none => simp [jpath, hl]
      | some w => simp [jpath, hl]
  | null => exact absurd h (by simp [pyGet])
  | bool b => exact absurd h (by simp [pyGet])
  | num n => exact absurd h (by simp [pyGet])
  | str s => exact absurd h (by simp [pyGet])
  | arr xs => exact absurd h (by simp [pyGet])

theorem unwrapCore_no_envelope {c : Json} (hk : hasKey c "event" = false) :
    unwrapCore c = c := by
  cases c with
  | obj kvs =>
      cases hl : jlookup kvs "event" with
      | none => simp [unwrapCore, jpath, hl]
      | some v =>
          rw [hasKey, hl] at hk
          simp at hk
  | null => rfl
  | bool b => rfl
  | num n => rfl
  | str s => rfl
  | arr xs => rfl

/-- Whenever `build_match_json` completes, the result is the canonical object
literal; this lemma exposes the slots the claims are about: the raw payloads
and the two score fields, in terms of the unwrapped event. -/
theorem build_ok_shape {c l s i m : Json}
    (h : build_match_json c l s i = .ok m) :
    ∃ ev, pyGet c "event" c = .ok ev ∧
      jpath m ["raw"] = some (.obj [("core", ev), ("lineups", l),
        ("statistics", s), ("incidents", i)]) ∧
      jpath m ["score", "home"] = some (pyOr (safe_get ev ["homeScore", "current"])
        (safe_get ev ["homeScore", "normaltime"])) ∧
      jpath m ["score", "away"] = some (pyOr (safe_get ev ["awayScore", "current"])
        (safe_get ev ["awayScore", "normaltime"])) := by
  unfold build_match_json at h
  obtain ⟨ev, hev, h⟩ := bind_ok h
  obtain ⟨htRaw, _, h⟩ := bind_ok h
  obtain ⟨ht, _, h⟩ := bind_ok h
  obtain ⟨atRaw, _, h⟩ := bind_ok h
  obtain ⟨at_, _, h⟩ := bind_ok h
  obtain ⟨r1, _, h⟩ := bind_ok h
  obtain ⟨r2, _, h⟩ := bind_ok h
  obtain ⟨s1, _, h⟩ := bind_ok h
  obtain ⟨t1, _, h⟩ := bind_ok h
  obtain ⟨t2, _, h⟩ := bind_ok h
  obtain ⟨team_stats, _, h⟩ := bind_ok h
  obtain ⟨eid, _, h⟩ := bind_ok h
  obtain ⟨slug, _, h⟩ := bind_ok h
  obtain ⟨startTs, _, h⟩ := bind_ok h
  obtain ⟨referee, _, h⟩ := bind_ok h
  obtain ⟨venue, _, h⟩ := bind_ok h
  obtain ⟨roundId, _, h⟩ := bind_ok h
  obtain ⟨rn1, _, h⟩ := bind_ok h
  obtain ⟨rn2, _, h⟩ := bind_ok h
  obtain ⟨seasonId, _, h⟩ := bind_ok h
  obtain ⟨seasonName, _, h⟩ := bind_ok h
  obtain ⟨seasonYear, _, h⟩ := bind_ok h
  obtain ⟨tournId, _, h⟩ := bind_ok h
  obtain ⟨tn1, _, h⟩ := bind_ok h
  obtain ⟨startingXIh, _, h⟩ := bind_ok h
  obtain ⟨benchH, _, h⟩ := bind_ok h
  obtain ⟨statsH, _, h⟩ := bind_ok h
  obtain ⟨startingXIa, _, h⟩ := bind_ok h
  obtain ⟨benchA, _, h⟩ := bind_ok h
  obtain ⟨statsA, _, h⟩ := bind_ok h
  obtain ⟨inc1, _, h⟩ := bind_ok h
  injection h with hm
  subst hm
  exact ⟨ev, hev, rfl, rfl, rfl⟩

/-- C1 (amended): the lineups, statistics and incidents payloads are retained
verbatim under the "raw" key, and the core payload is retained after the
optional outer envelope is unwrapped — verbatim exactly when no "event"
envelope is present. -/
theorem normalizer_raw_retention {c l s i m : Json}
    (h : build_match_json c l s i = .ok m) :
    jpath m ["raw"] = some (.obj [("core", unwrapCore c), ("lineups", l),
        ("statistics", s), ("incidents", i)]) ∧
      (hasKey c "event" = false → unwrapCore c = c) := by
  obtain ⟨ev, hev, hraw, _, _⟩ := build_ok_shape h
  have hu : ev = unwrapCore c := pyGet_self_ok hev
  exact ⟨hu ▸ hraw, fun hk => unwrapCore_no_envelope hk⟩

/-- A concrete core payload wrapped in the optional `event` envelope. -/
def coreEnveloped : Json := .obj [("event", .obj [("id", Json.num 7)])]

/-- C1 counterexample: with an enveloped core payload, raw.core is the
unwrapped inner event, not the core payload as passed in. -/
theorem normalizer_raw_core_not_verbatim :
    ((build_match_json coreEnveloped .null .null .null).toOption.bind
        (fun m => jpath m ["raw", "core"])) = some (Json.obj [("id", Json.num 7)]) ∧
      Json.obj [("id", Json.num 7)] ≠ coreEnveloped := by
  refine ⟨rfl, ?_⟩
  intro hcontra
  simp only [coreEnveloped, Json.obj.injEq, List.cons.injEq, Prod.mk.injEq] at hcontra
  exact absurd hcontra.1.1 (by decide)

/-- A concrete core payload with no envelope. -/
def corePlain : Json := .obj [("id", Json.num 3)]

/-- Witness for `normalizer_raw_retention` at a concrete enveloped-free
input. -/
theorem normalizer_raw_retention_witness :
    build_match_json corePlain .null .null .null =
        .ok ((build_match_json corePlain .null .null .null).toOption.getD .null) ∧
      jpath ((build_match_json corePlain .null .null .null).toOption.getD .null)
          ["raw"] =
        some (.obj [("core", unwrapCore corePlain), ("lineups", .null),
          ("statistics", .null), ("incidents", .null)]) :=
  ⟨by rfl, (normalizer_raw_retention (by rfl)).1⟩

/-- C4 (amended): the canonical score.home (resp. score.away) equals the
event's "current" score field whenever that field is truthy (present and
neither null nor zero), and equals the "normal-time" field whenever the
"current" field is falsy — absent, null, or zero. -/
theorem normalizer_score_fallback {c l s i m : Json}
    (h : build_match_json c l s i = .ok m) :
    (truthy (safe_get (unwrapCore c) ["homeScore", "current"]) = true →
        jpath m ["score", "home"] =
          some (safe_get (unwrapCore c) ["homeScore", "current"])) ∧
    (truthy (safe_get (unwrapCore c) ["homeScore", "current"]) = false →
        jpath m ["score", "home"] =
          some (safe_get (unwrapCore c) ["homeScore", "normaltime"])) ∧
    (truthy (safe_get (unwrapCore c) ["awayScore", "current"]) = true →
        jpath m ["score", "away"] =
          some (safe_get (unwrapCore c) ["awayScore", "current"])) ∧
    (truthy (safe_get (unwrapCore c) ["awayScore", "current"]) = false →
        jpath m ["score", "away"] =
          some (safe_get (unwrapCore c) ["awayScore", "normaltime"])) := by
  obtain ⟨ev, hev, _, hsh, hsa⟩ := build_ok_shape h
  have hu : ev = unwrapCore c := pyGet_self_ok hev
  subst hu
  refine ⟨fun ht => ?_, fun ht => ?_, fun ht => ?_, fun ht => ?_⟩
  · rw [hsh]; simp [pyOr, ht]
  · rw [hsh]; simp [pyOr, ht]
  · rw [hsa]; simp [pyOr, ht]
  · rw [hsa]; simp [pyOr, ht]

/-- A concrete core whose current home score is 0 while normal-time is 1. -/
def coreZeroScore : Json :=
  .obj [("homeScore", .obj [("current", Json.num 0), ("normaltime", Json.num 1)])]

/-- C4 counterexample: with the "current" home score present but equal to 0,
the canonical score.home is the "normal-time" value 1, not the present
"current" value 0 — the fallback triggers on falsiness, not only absence. -/
theorem normalizer_score_current_zero_ignored :
    safe_get (unwrapCore coreZeroScore) ["homeScore", "current"] = Json.num 0 ∧
      ((build_match_json coreZeroScore .null .null .null).toOption.bind
          (fun m => jpath m ["score", "home"])) = some (Json.num 1) ∧
      Json.num 1 ≠ Json.num 0 := by
  refine ⟨rfl, rfl, ?_⟩
  intro hcontra
  simp only [Json.num.injEq] at hcontra
  exact absurd hcontra (by decide)

/-- A concrete core with a truthy current home score. -/
def coreScore2 : Json := .obj [("homeScore", .obj [("current", Json.num 2)])]

/-- Witness for `normalizer_score_fallback` at a concrete input whose
current score is truthy. -/
theorem normalizer_score_fallback_witness :
    build_match_json coreScore2 .null .null .null =
        .ok ((build_match_json coreScore2 .null .null .null).toOption.getD .null) ∧
      truthy (safe_get (unwrapCore coreScore2) ["homeScore", "current"]) = true ∧
      jpath ((build_match_json coreScore2 .null .null .null).toOption.getD .null)
          ["score", "home"] =
        some (safe_get (unwrapCore coreScore2) ["homeScore", "current"]) :=
  ⟨by rfl, by rfl,
    (@normalizer_score_fallback coreScore2 .null .null .null
      ((build_match_json coreScore2 .null .null .null).toOption.getD .null)
      (by rfl)).1 (by rfl)⟩

/-! ## Discovery: season resolution (scraper.py lines 106-115 and 370-383) -/

/-- Python `==` between a JSON value and an int (Python treats booleans as
0/1 for equality). -/
def pyEqInt (v : Json) (n : Int) : Bool :=
  match v with
  | .num m => m == n
  | .bool b => (if b then (1 : Int) else 0) == n
  | _ => false

/-- First loop of `get_season_id_by_year` (scraper.py lines 108-110): return
the id of the first season whose numeric `year` field equals the requested
year; `none` when the loop falls through. -/
def seasonYearScan : List Json → Int → Except PyErr (Option Json)
  | [], _ => .ok none
  | s :: rest, year => do
      let y ← pyGet s "year" .null
      if pyEqInt y year then do
        let i ← pyGet s "id" .null
        .ok (some i)
      else seasonYearScan rest year

/-- Second loop of `get_season_id_by_year` (scraper.py lines 112-114): return
the id of the first season whose stringified `name` equals the stringified
year. -/
def seasonNameScan : List Json → Int → Except PyErr (Option Json)
  | [], _ => .ok none
  | s :: rest, year => do
      let n ← pyGet s "name" .null
      if pyStr n == toString year then do
        let i ← pyGet s "id" .null
        .ok (some i)
      else seasonNameScan rest year

/-- `SofaScoreClient.get_season_id_by_year` (scraper.py lines 106-115) over
an already-fetched seasons list: match first on the numeric year field,
fall back to string equality on the name field, else `None`. -/
def get_season_id_by_year (seasons : List Json) (year : Int) :
    Except PyErr Json := do
  match ← seasonYearScan seasons year with
  | some v => .ok v
  | none =>
      match ← seasonNameScan seasons year with
      | some v => .ok v
      | none => .ok .null

/-- Season resolution step of `collect_matches` (scraper.py line 379): the
season id is hard-coded to 72034 whatever season year is requested;
`get_season_id_by_year` is never called, and the falsy guard on line 380 is
dead because 72034 is truthy. Every subsequent round and event query uses
this constant. -/
def collect_matches_season_id (_year : Int) : Int := 72034

/-- A seasons list in which 2024 and 2025 map to distinct season ids. -/
def demoSeasons : List Json :=
  [.obj [("id", Json.num 1), ("year", Json.num 2024)],
   .obj [("id", Json.num 2), ("year", Json.num 2025)]]

/-- A seasons list whose season is found only through the name fallback. -/
def demoNameSeasons : List Json :=
  [.obj [("id", Json.num 5), ("name", Json.str "2024")]]

/-- C2: collect_matches uses the hard-coded season id 72034 for every
requested year — the year-scanning resolver (which does distinguish years,
matching on the year field with a name-string fallback) is never consulted,
so two runs with different requested years still query the same season id. -/
theorem collect_matches_ignores_season_year :
    (∀ y : Int, collect_matches_season_id y = 72034) ∧
      collect_matches_season_id 2024 = collect_matches_season_id 2025 ∧
      get_season_id_by_year demoSeasons 2024 = .ok (Json.num 1) ∧
      get_season_id_by_year demoSeasons 2025 = .ok (Json.num 2) ∧
      Json.num 1 ≠ Json.num 2 ∧
      get_season_id_by_year demoNameSeasons 2024 = .ok (Json.num 5) := by
  refine ⟨fun y => rfl, rfl, rfl, rfl, ?_, rfl⟩
  intro hcontra
  simp only [Json.num.injEq] at hcontra
  exact absurd hcontra (by decide)

/-! ## Normalizer lineup conversion invariant (scraper.py lines 220-239) -/

/-- The player entries listed under a lineup block's `players` key, read
totally (the claim-side view of the entries the loop iterates). -/
def listedEntries (block : Json) : List Json :=
  match block with
  | .obj kvs =>
      match jlookup kvs "players" with
      | some (.arr xs) => xs
      | _ => []
  | _ => []

/-- A lineup entry whose `statistics` field is well-typed: absent, null, or
an object. -/
def statsTyped (pl : Json) : Bool :=
  match pl with
  | .obj kvs =>
      match jlookup kvs "statistics" with
      | none => true
      | some .null => true
      | some (.obj _) => true
      | some _ => false
  | _ => true

/-- Null or a non-empty object — the shape the claim asserts for normalized
player statistics. -/
def nullOrNonemptyObj : Json → Bool
  | .null => true
  | .obj kvs => !kvs.isEmpty
  | _ => false

/-- The `statistics` field of a produced player record, read totally. -/
def statsOf (p : Json) : Json :=
  match p with
  | .obj kvs => (jlookup kvs "statistics").getD .null
  | _ => .null

theorem mapME_ok_mem {f : Json → Except PyErr Json} :
    ∀ {xs ys : List Json}, mapME f xs = .ok ys →
      ∀ y ∈ ys, ∃ x ∈ xs, f x = .ok y := by
  intro xs
  induction xs with
  | nil =>
      intro ys h y hy
      rw [mapME] at h
      injection h with h
      subst h
      cases hy
  | cons x xs ih =>
      intro ys h y hy
      rw [mapME] at h
      obtain ⟨v, hv, h⟩ := bind_ok h
      obtain ⟨vs, hvs, h⟩ := bind_ok h
      injection h with h
      subst h
      rcases List.mem_cons.mp hy with hy | hy
      · exact ⟨x, List.mem_cons_self x xs, hy ▸ hv⟩
      · obtain ⟨x', hx', hfx'⟩ := ih hvs y hy
        exact ⟨x', List.mem_cons_of_mem x hx', hfx'⟩

theorem player_of_entry_stats {pl p : Json} (h : player_of_entry pl = .ok p)
    (ht : statsTyped pl = true) : nullOrNonemptyObj (statsOf p) = true := by
  unfold player_of_entry at h
  obtain ⟨pRaw, hpRaw, h⟩ := bind_ok h
  obtain ⟨sRaw, hsRaw, h⟩ := bind_ok h
  obtain ⟨pid, _, h⟩ := bind_ok h
  obtain ⟨pname, _, h⟩ := bind_ok h
  obtain ⟨pslug, _, h⟩ := bind_ok h
  obtain ⟨shirt, _, h⟩ := bind_ok h
  obtain ⟨pos, _, h⟩ := bind_ok h
  obtain ⟨capt, _, h⟩ := bind_ok h
  obtain ⟨rating, _, h⟩ := bind_ok h
  injection h with hp
  subst hp
  cases pl with
  | obj kvs =>
      simp only [pyGet, Except.ok.injEq] at hsRaw
      rw [statsTyped] at ht
      cases hl : jlookup kvs "statistics" with
      | none =>
          rw [hl] at hsRaw
          simp only [Option.getD] at hsRaw
          subst hsRaw
          rfl
      | some v =>
          rw [hl] at hsRaw ht
          simp only [Option.getD] at hsRaw
          subst hsRaw
          cases v with
          | null => rfl
          | obj kvs2 => cases kvs2 with
              | nil => rfl
              | cons q qs => rfl
          | bool b => exact absurd ht (by simp)
          | num n => exact absurd ht (by simp)
          | str s => exact absurd ht (by simp)
          | arr xs => exact absurd ht (by simp)
  | null => exact absurd hpRaw (by simp [pyGet])
  | bool b => exact absurd hpRaw (by simp [pyGet])
  | num n => exact absurd hpRaw (by simp [pyGet])
  | str s => exact absurd hpRaw (by simp [pyGet])
  | arr xs => exact absurd hpRaw (by simp [pyGet])

/-- C10 (amended): every player entry produced by the lineup conversion has
a statistics field that is null or a non-empty map, provided the source
entry's statistics field was itself absent, null, or a map; an empty source
statistics object is normalized to null. (A truthy non-map statistics value
would pass through unchanged, see the counterexample.) -/
theorem lineup_players_stats_null_or_nonempty {block : Json} {ps : List Json}
    (h : lineup_to_players block = .ok ps)
    (ht : ∀ pl ∈ listedEntries block, statsTyped pl = true) :
    ∀ p ∈ ps, nullOrNonemptyObj (statsOf p) = true := by
  unfold lineup_to_players at h
  by_cases hb : truthy block = false
  · rw [if_pos hb] at h
    injection h with h
    subst h
    intro p hp
    cases hp
  · rw [if_neg hb] at h
    obtain ⟨playersVal, hpv, h⟩ := bind_ok h
    obtain ⟨entries, hent, h⟩ := bind_ok h
    intro p hp
    obtain ⟨pl, hpl, hok⟩ := mapME_ok_mem h p hp
    cases block with
    | obj kvs =>
        simp only [pyGet, Except.ok.injEq] at hpv
        apply player_of_entry_stats hok
        cases hl : jlookup kvs "players" with
        | none =>
            rw [hl] at hpv
            simp only [Option.getD] at hpv
            subst hpv
            simp only [pyIter, Except.ok.injEq] at hent
            subst hent
            cases hpl
        | some v =>
            rw [hl] at hpv
            simp only [Option.getD] at hpv
            subst hpv
            cases v with
            | arr xs =>
                simp only [pyIter, Except.ok.injEq] at hent
                subst hent
                apply ht
                simp [listedEntries, hl, hpl]
            | obj kvs2 =>
                simp only [pyIter, Except.ok.injEq] at hent
                subst hent
                obtain ⟨q, hq, hqe⟩ := List.mem_map.mp hpl
                rw [← hqe] at hok
                exact absurd hok (by simp [player_of_entry, pyGet, Bind.bind, Except.bind])
            | str s =>
                simp only [pyIter, Except.ok.injEq] at hent
                subst hent
                obtain ⟨q, hq, hqe⟩ := List.mem_map.mp hpl
                rw [← hqe] at hok
                exact absurd hok (by simp [player_of_entry, pyGet, Bind.bind, Except.bind])
            | null => exact absurd hent (by simp [pyIter])
            | bool b => exact absurd hent (by simp [pyIter])
            | num n => exact absurd hent (by simp [pyIter])
    | null => exact absurd hpv (by simp [pyGet])
    | bool b => exact absurd hpv (by simp [pyGet])
    | num n => exact absurd hpv (by simp [pyGet])
    | str s => exact absurd hpv (by simp [pyGet])
    | arr xs => exact absurd hpv (by simp [pyGet])

/-- A lineup block whose single player carries a truthy non-map statistics
value. -/
def blockNumericStats : Json :=
  .obj [("players", .arr [.obj [("statistics", Json.num 5)]])]

/-- The player record the conversion produces for that block. -/
def playerNumericStats : Json :=
  .obj [("id", .null), ("name", .null), ("slug", .null), ("shirtNumber", .null),
        ("position", .null), ("captain", .null), ("rating", .null),
        ("statistics", Json.num 5)]

/-- C10 counterexample: a source entry whose statistics field is the truthy
non-map value 5 is passed through unchanged, so the produced player's
statistics field is neither null nor a (non-empty) map. -/
theorem lineup_player_stats_passthrough :
    lineup_to_players blockNumericStats = .ok [playerNumericStats] ∧
      statsOf playerNumericStats = Json.num 5 ∧
      nullOrNonemptyObj (Json.num 5) = false :=
  ⟨rfl, rfl, rfl⟩

/-- A lineup block with one empty-statistics player and one player carrying
a non-empty statistics map. -/
def blockTypedStats : Json :=
  .obj [("players", .arr [.obj [("statistics", .obj [])],
                          .obj [("statistics", .obj [("goals", Json.num 1)])]])]

/-- Witness for `lineup_players_stats_null_or_nonempty` on a concrete block
whose statistics fields are well-typed. -/
theorem lineup_players_stats_null_or_nonempty_witness :
    lineup_to_players blockTypedStats =
        .ok ((lineup_to_players blockTypedStats).toOption.getD []) ∧
      (∀ pl ∈ listedEntries blockTypedStats, statsTyped pl = true) ∧
      ∀ p ∈ (lineup_to_players blockTypedStats).toOption.getD [],
        nullOrNonemptyObj (statsOf p) = true :=
  ⟨by rfl, by decide,
    @lineup_players_stats_null_or_nonempty blockTypedStats
      ((lineup_to_players blockTypedStats).toOption.getD [])
      (by rfl) (by decide)⟩

/-! ## Vector store: delete_document (pg_vector_store.py lines 158-171) -/

/-- Outcome of the storage side during one `delete_document` call: obtaining
the connection may fail, the DELETE/commit may fail, or everything
succeeds. -/
inductive DbOutcome where
  | connFail : DbOutcome
  | execFail : DbOutcome
  | allOk : DbOutcome

/-- The try-block of `delete_document` (lines 159-164): the in-flight
exception, if any, together with whether the locals `conn` and `cur` got
bound before the block ended. -/
def deleteTryBody (o : DbOutcome) : Option PyErr × Bool × Bool :=
  match o with
  | .connFail => (some .dbError, false, false)
  | .execFail => (some .dbError, true, true)
  | .allOk => (none, true, true)

/-- The except-handler (lines 165-168): `conn.rollback()` raises
UnboundLocalError when `conn` was never bound; otherwise the caught
exception is logged and suppressed. -/
def deleteHandler (connBound : Bool) : Option PyErr :=
  if connBound then none else some .unboundLocal

/-- The finally-block (lines 169-171): `cur.close()` raises
UnboundLocalError when `cur` was never bound; an exception raised in a
finally block replaces any in-flight exception. -/
def deleteFinallyBlock (curBound : Bool) : Option PyErr :=
  if curBound then none else some .unboundLocal

/-- `PgVectorStore.delete_document` (pg_vector_store.py lines 158-171):
Python's try/except/finally composition, made explicit. -/
def delete_document (o : DbOutcome) (_doc_id : String) : Except PyErr Unit :=
  let r := deleteTryBody o
  let afterHandler : Option PyErr :=
    match r.1 with
    | none => none
    | some _ => deleteHandler r.2.1
  match deleteFinallyBlock r.2.2 with
  | some e => .error e
  | none =>
      match afterHandler with
      | some e => .error e
      | none => .ok ()

/-- C2-adjacent evidence for C9: when obtaining the storage connection
fails, delete_document raises UnboundLocalError out of its own except and
finally blocks (`conn`/`cur` were never bound), contradicting the claim
that every failure is logged and the call returns normally; a failure of
the DELETE itself is indeed swallowed. -/
theorem delete_document_propagates_on_conn_failure :
    delete_document .connFail "doc-1" = .error .unboundLocal ∧
      delete_document .execFail "doc-1" = .ok () ∧
      delete_document .allOk "doc-1" = .ok () :=
  ⟨rfl, rfl, rfl⟩

/-! ## Vector store: embed and add_document (pg_vector_store.py lines 46-130) -/

/-- One stored row of the embeddings table. -/
structure DbRow where
  id : String
  text : String
  meta : List (String × Json)
  emb : List Rat

/-- `PgVectorStore.embed` (pg_vector_store.py lines 46-69) as a function of
the embedding service's raw response (its list of embeddings): an empty
response yields `[]`, a first embedding of dimensionality other than 768
yields `[]` (both are logged errors), otherwise the first embedding is
returned. -/
def embed (resp : List (List Rat)) : List Rat :=
  match resp with
  | [] => []
  | e :: _ => if e.length = 768 then e else []

/-- The slicing loop `[text[i:i+max_chunk_size] for i in range(0, len(text),
max_chunk_size)]` (line 85) over the character list, driven by a fuel equal
to the text length so the recursion is structural. -/
def chunksGo (m : Nat) : Nat → List Char → List (List Char)
  | 0, _ => []
  | _ + 1, [] => []
  | fuel + 1, c :: cs => (c :: cs).take m :: chunksGo m fuel ((c :: cs).drop m)

/-- The chunk list of `add_document`. A zero chunk size makes Python's
`range` raise; the outer handler catches it and the call returns `[]`
having written nothing, which coincides with producing no chunks. -/
def pyChunks (text : String) (m : Nat) : List String :=
  if m = 0 then []
  else (chunksGo m text.length text.toList).map (fun cs => String.mk cs)

/-- `INSERT ... ON CONFLICT (id) DO UPDATE` (lines 104-112): replace the
row carrying the same id, else append. -/
def upsert (db : List DbRow) (row : DbRow) : List DbRow :=
  if db.any (fun r => r.id == row.id) then
    db.map (fun r => if r.id == row.id then row else r)
  else db ++ [row]

/-- The per-chunk loop of `add_document` (lines 88-124), threading the
uuid4 supply counter and the storage state. Each successful chunk commits
its own upsert; an embedding failure aborts the loop with `none` (the
caller then returns the empty id list), keeping the rows already committed
for earlier chunks. -/
def addGo (embedResp : String → List (List Rat)) (uuids : Nat → String)
    (metadata : List (String × Json)) :
    List String → Nat → Nat → List DbRow → Option (List String) × List DbRow
  | [], _, _, db => (some [], db)
  | chunk :: rest, idx, ctr, db =>
      let chunk_id := uuids ctr
      let pidRaw := (jlookup metadata "parent_id").getD .null
      let pidCtr : Json × Nat :=
        if truthy pidRaw then (pidRaw, ctr + 1)
        else (Json.str (uuids (ctr + 1)), ctr + 2)
      let chunk_meta :=
        dictSet (dictSet metadata "chunk_index" (.num idx)) "parent_id" pidCtr.1
      let embedding := embed (embedResp chunk)
      if embedding.isEmpty then (none, db)
      else
        let db' := upsert db ⟨chunk_id, chunk, chunk_meta, embedding⟩
        let next := addGo embedResp uuids metadata rest (idx + 1) pidCtr.2 db'
        (next.1.map (fun ids => chunk_id :: ids), next.2)

/-- `PgVectorStore.add_document` (pg_vector_store.py lines 82-130): split
the text into fixed-size character windows, embed and upsert each window,
return the fresh ids — or the empty list when any embedding fails. -/
def add_document (embedResp : String → List (List Rat)) (uuids : Nat → String)
    (text : String) (metadata : List (String × Json)) (maxChunk : Nat)
    (db : List DbRow) : List String × List DbRow :=
  let r := addGo embedResp uuids metadata (pyChunks text maxChunk) 0 0 db
  (r.1.getD [], r.2)

theorem addGo_fail (embedResp : String → List (List Rat)) (uuids : Nat → String)
    (metadata : List (String × Json)) :
    ∀ (chunks : List String) (idx ctr : Nat) (db : List DbRow),
      (∃ c ∈ chunks, embed (embedResp c) = []) →
        (addGo embedResp uuids metadata chunks idx ctr db).1 = none ∧
          (addGo embedResp uuids metadata chunks idx ctr db).2 =
            (addGo embedResp uuids metadata
              (chunks.takeWhile (fun c => !(embed (embedResp c)).isEmpty))
              idx ctr db).2 := by
  intro chunks
  induction chunks with
  | nil =>
      intro idx ctr db hfail
      obtain ⟨c, hc, _⟩ := hfail
      cases hc
  | cons c rest ih =>
      intro idx ctr db hfail
      cases he : (embed (embedResp c)).isEmpty with
      | true =>
          refine ⟨?_, ?_⟩ <;> simp [addGo, List.takeWhile_cons, he]
      | false =>
          have hrest : ∃ c' ∈ rest, embed (embedResp c') = [] := by
            obtain ⟨c', hc', hce⟩ := hfail
            rcases List.mem_cons.mp hc' with hq | hq
            · subst hq
              rw [hce] at he
              simp at he
            · exact ⟨c', hq, hce⟩
          refine ⟨?_, ?_⟩
          · simp only [addGo, he, Bool.false_eq_true, if_false]
            rw [(ih (idx + 1) _ _ hrest).1]
            rfl
          · simp only [addGo, List.takeWhile_cons, he, Bool.not_false,
              if_true, Bool.false_eq_true, if_false]
            exact (ih (idx + 1) _ _ hrest).2

/-- C3 (amended): whenever the embedding of some sub-chunk of an
add_document call comes back empty or of the wrong dimensionality, the call
returns an empty id list — no partial id set — and storage is left exactly
as after upserting the sub-chunks preceding the first failing one (each
sub-chunk commits in its own transaction, so rows of earlier successful
sub-chunks survive; zero rows are written only when the first sub-chunk
fails). -/
theorem add_document_aborts_ids_keeps_prefix_rows
    (embedResp : String → List (List Rat)) (uuids : Nat → String)
    (text : String) (metadata : List (String × Json)) (maxChunk : Nat)
    (db : List DbRow)
    (hfail : ∃ c ∈ pyChunks text maxChunk, embed (embedResp c) = []) :
    (add_document embedResp uuids text metadata maxChunk db).1 = [] ∧
      (add_document embedResp uuids text metadata maxChunk db).2 =
        (addGo embedResp uuids metadata
          ((pyChunks text maxChunk).takeWhile
            (fun c => !(embed (embedResp c)).isEmpty)) 0 0 db).2 := by
  obtain ⟨h1, h2⟩ := addGo_fail embedResp uuids metadata
    (pyChunks text maxChunk) 0 0 db hfail
  constructor
  · simp only [add_document, h1, Option.getD_none]
  · simpa only [add_document] using h2

/-- A well-formed 768-dimensional embedding vector. -/
def goodVec : List Rat := List.replicate 768 0

/-- An embedding service that succeeds on "a" and returns nothing on any
other text. -/
def embedRespA (s : String) : List (List Rat) :=
  if s = "a" then [goodVec] else []

/-- C3 counterexample: splitting "ab" into the sub-chunks "a" and "b" where
"a" embeds fine and the embedding of "b" comes back empty, the call returns
the empty id list but one row — the already-committed upsert of sub-chunk
"a" — survives in storage, so the call did not write zero rows. -/
theorem add_document_partial_rows_survive :
    embed (embedRespA "b") = [] ∧
      (add_document embedRespA (fun n => toString n) "ab" [] 1 []).1 = [] ∧
      ((add_document embedRespA (fun n => toString n) "ab" [] 1 []).2).length = 1 :=
  ⟨rfl, rfl, rfl⟩

/-- An embedding service that succeeds on "x" only. -/
def embedRespX (s : String) : List (List Rat) :=
  if s = "x" then [goodVec] else []

/-- Witness for `add_document_aborts_ids_keeps_prefix_rows` on the concrete
two-chunk text "xy" whose second sub-chunk fails to embed. -/
theorem add_document_aborts_witness :
    (∃ c ∈ pyChunks "xy" 1, embed (embedRespX c) = []) ∧
      (add_document embedRespX (fun n => "u" ++ toString n) "xy" [] 1 []).1 = [] :=
  ⟨by decide,
    (add_document_aborts_ids_keeps_prefix_rows embedRespX
      (fun n => "u" ++ toString n) "xy" [] 1 [] (by decide)).1⟩

/-! ## Vector store: search_with_score (pg_vector_store.py lines 182-236) -/

mutual

/-- JSON text of a value (used by the jsonb `->>` operator on composite
values). -/
def jsonRender : Json → String
  | .null => "null"
  | .bool true => "true"
  | .bool false => "false"
  | .num n => toString n
  | .str s => "\"" ++ s ++ "\""
  | .arr xs => "[" ++ jsonRenderElems xs ++ "]"
  | .obj kvs => "\x7b" ++ jsonRenderFields kvs ++ "\x7d"

/-- Comma-joined renderings of array elements. -/
def jsonRenderElems : List Json → String
  | [] => ""
  | [x] => jsonRender x
  | x :: xs => jsonRender x ++ ", " ++ jsonRenderElems xs

/-- Comma-joined renderings of object fields. -/
def jsonRenderFields : List (String × Json) → String
  | [] => ""
  | [(k, v)] => "\"" ++ k ++ "\": " ++ jsonRender v
  | (k, v) :: kvs => "\"" ++ k ++ "\": " ++ jsonRender v ++ ", " ++ jsonRenderFields kvs

end

/-- Postgres `value->>'key'` text extraction semantics on one json value:
SQL NULL for a json null, the bare string for a json string, the literal
text otherwise. -/
def jsonbText : Json → Option String
  | .null => none
  | .str s => some s
  | j => some (jsonRender j)

/-- The text the filter clause `metadata->> key = value` compares on a
stored row's metadata. -/
def metaFieldText (meta : List (String × Json)) (key : String) : Option String :=
  (jlookup meta key).bind jsonbText

/-- The optional minimum-score cutoff clause (lines 208-210): no clause
when no threshold is given, otherwise `similarity >= threshold`. -/
def thrOk (sim : Rat) : Option Rat → Bool
  | none => true
  | some t => decide (t ≤ sim)

/-- `PgVectorStore.search_with_score` (pg_vector_store.py lines 182-236):
an empty query short-circuits to `[]` before any storage access; otherwise
the stored rows are scored as one minus the distance between the query
embedding and the row embedding, filtered by exact-match metadata equalities
and the optional minimum-score cutoff, ordered by similarity descending and
truncated to `k`. The distance operator `<=>` and the query embedding are
parameters (the backing store and embedding service are external). SQL does
not fix an order among equal similarities; insertion sort realizes the
`ORDER BY similarity DESC LIMIT k` clause. -/
def search_with_score (dist : List Rat → List Rat → Rat) (qemb : List Rat)
    (db : List DbRow) (query : String) (filt : List (String × String))
    (k : Nat) (thr : Option Rat) : List (DbRow × Rat) :=
  if query = "" then []
  else
    let sim : DbRow → Rat := fun r => 1 - dist qemb r.emb
    let keep : DbRow → Bool := fun r =>
      filt.all (fun p => metaFieldText r.meta p.1 == some p.2) &&
        thrOk (sim r) thr
    let sorted := List.insertionSort (fun a b => sim b ≤ sim a) (db.filter keep)
    (sorted.take k).map (fun r => (r, sim r))

/-- C8: for every non-empty query, search_with_score returns at most k
pairs, each scored as one minus the distance between the query embedding
and the stored embedding, ordered by similarity descending, with every
returned row matching every metadata filter exactly and (when a score
threshold is given) scoring at least the threshold; the empty query returns
`[]` for every storage state, without consulting it. -/
theorem search_with_score_spec (dist : List Rat → List Rat → Rat)
    (qemb : List Rat) (db : List DbRow) (query : String)
    (filt : List (String × String)) (k : Nat) (thr : Option Rat)
    (hq : query ≠ "") :
    (search_with_score dist qemb db query filt k thr).length ≤ k ∧
      (∀ pr ∈ search_with_score dist qemb db query filt k thr,
        pr.2 = 1 - dist qemb pr.1.emb) ∧
      List.Pairwise (fun a b : DbRow × Rat => b.2 ≤ a.2)
        (search_with_score dist qemb db query filt k thr) ∧
      (∀ pr ∈ search_with_score dist qemb db query filt k thr,
        ∀ fv ∈ filt, metaFieldText pr.1.meta fv.1 = some fv.2) ∧
      (∀ t, thr = some t →
        ∀ pr ∈ search_with_score dist qemb db query filt k thr, t ≤ pr.2) ∧
      (∀ db' : List DbRow, search_with_score dist qemb db' "" filt k thr = []) := by
  have hsimp : ∀ db' : List DbRow, search_with_score dist qemb db' "" filt k thr = [] := by
    intro db'
    simp [search_with_score]
  have hmem : ∀ pr ∈ search_with_score dist qemb db query filt k thr,
      pr.2 = 1 - dist qemb pr.1.emb ∧
        (filt.all (fun p => metaFieldText pr.1.meta p.1 == some p.2) &&
          thrOk (1 - dist qemb pr.1.emb) thr) = true := by
    intro pr hpr
    unfold search_with_score at hpr
    rw [if_neg hq] at hpr
    obtain ⟨r, hr, hreq⟩ := List.mem_map.mp hpr
    have hr2 := List.mem_of_mem_take hr
    have hr3 := (List.perm_insertionSort _ _).mem_iff.mp hr2
    have hkeep := (List.mem_filter.mp hr3).2
    cases hreq
    exact ⟨rfl, hkeep⟩
  refine ⟨?_, fun pr hpr => (hmem pr hpr).1, ?_, ?_, ?_, hsimp⟩
  · unfold search_with_score
    rw [if_neg hq, List.length_map, List.length_take]
    exact min_le_left _ _
  · unfold search_with_score
    rw [if_neg hq, List.pairwise_map]
    have hst : List.Pairwise
        (fun a b : DbRow => 1 - dist qemb b.emb ≤ 1 - dist qemb a.emb)
        (List.insertionSort
          (fun a b : DbRow => 1 - dist qemb b.emb ≤ 1 - dist qemb a.emb)
          (db.filter (fun r =>
            filt.all (fun p => metaFieldText r.meta p.1 == some p.2) &&
              thrOk (1 - dist qemb r.emb) thr))) := by
      haveI : IsTotal DbRow
          (fun a b : DbRow => 1 - dist qemb b.emb ≤ 1 - dist qemb a.emb) :=
        ⟨fun a b => le_total _ _⟩
      haveI : IsTrans DbRow
          (fun a b : DbRow => 1 - dist qemb b.emb ≤ 1 - dist qemb a.emb) :=
        ⟨fun _ _ _ hab hbc => le_trans hbc hab⟩
      exact List.sorted_insertionSort _ _
    exact hst.sublist (List.take_sublist _ _)
  · intro pr hpr fv hfv
    have hkeep := (hmem pr hpr).2
    have hall := (Bool.and_eq_true_iff.mp hkeep).1
    exact eq_of_beq ((List.all_eq_true.mp hall) fv hfv)
  · intro t hthr pr hpr
    have hkeep := (hmem pr hpr).2
    rw [hthr] at hkeep
    have hd := (Bool.and_eq_true_iff.mp hkeep).2
    rw [thrOk] at hd
    have hle : t ≤ 1 - dist qemb pr.1.emb := of_decide_eq_true hd
    rw [(hmem pr hpr).1]
    exact hle

/-- Two concrete stored rows used by the search witness. -/
def rowA : DbRow :=
  ⟨"id-a", "alpha", [("team", .str "X")], List.replicate 768 0⟩

/-- A second concrete stored row with different metadata. -/
def rowB : DbRow :=
  ⟨"id-b", "beta", [("team", .str "Y")], List.replicate 768 1⟩

/-- Witness for `search_with_score_spec` on a concrete store, query,
filter, limit and threshold. -/
theorem search_with_score_spec_witness :
    (("alpha" : String) ≠ "") ∧
      (search_with_score (fun _ _ => (0 : Rat)) [] [rowA, rowB] "alpha"
        [("team", "X")] 5 none).length ≤ 5 :=
  ⟨by decide,
    (search_with_score_spec (fun _ _ => (0 : Rat)) [] [rowA, rowB] "alpha"
      [("team", "X")] 5 none (by decide)).1⟩

/-! ## Chunk builder (embedder.py lines 17-129) -/

/-- The match-level context dict built once per file (embedder.py lines
84-94); keys are fixed, so it is a record. The two per-player team fields
are stamped in (lines 109-111) before each chunk is created. -/
structure MatchCtx where
  eventId : Json
  matchDate : Json
  season : Json
  round : Json
  homeTeamName : Json
  awayTeamName : Json
  homeScore : Json
  awayScore : Json
  sourceFile : String
  playerTeamName : Json
  playerTeamId : Json

/-- `os.path.basename`: the characters after the last slash. -/
def basename (p : String) : String :=
  String.mk (p.toList.foldl (fun acc c => if c = '/' then [] else acc ++ [c]) [])

/-- Python `v is not None` (the metadata-dropping predicate of line 54). -/
def isNotNone : Json → Bool
  | .null => false
  | _ => true

/-- One retrievable chunk: the structured content handed to `json.dumps`
and the metadata dict passed to add_document. -/
abbrev Chunk := Json × List (String × Json)

/-- `SofaScoreEmbedder._create_player_chunk` (embedder.py lines 17-55).
Note line 18 uses `player_data.get("player", \x7b\x7d)` without an `or`, so a
null player value crashes the file. Null-valued metadata keys are dropped
(line 54). -/
def create_player_chunk (player_data : Json) (ctx : MatchCtx) :
    Except PyErr Chunk := do
  let player_info ← pyGet player_data "player" (.obj [])
  let player_stats ← pyGet player_data "statistics" (.obj [])
  let pid ← pyGet player_info "id" .null
  let pname ← pyGet player_info "name" .null
  let pos ← pyGet player_data "position" .null
  let jersey ← pyGet player_data "jerseyNumber" .null
  let subst ← pyGet player_data "substitute" (.bool false)
  let content := Json.obj [
    ("matchInfo", .obj [
      ("eventId", ctx.eventId), ("matchDate", ctx.matchDate),
      ("season", ctx.season), ("round", ctx.round),
      ("homeTeam", ctx.homeTeamName), ("awayTeam", ctx.awayTeamName),
      ("finalScore", .str (pyStr ctx.homeScore ++ " x " ++ pyStr ctx.awayScore))]),
    ("playerPerformance", .obj [
      ("playerId", pid), ("playerName", pname),
      ("playerTeam", ctx.playerTeamName), ("position", pos),
      ("jerseyNumber", jersey), ("isSubstitute", subst),
      ("statistics", player_stats)])]
  let rawMeta : List (String × Json) := [
    ("eventId", ctx.eventId), ("playerId", pid), ("playerName", pname),
    ("teamId", ctx.playerTeamId), ("teamName", ctx.playerTeamName),
    ("season", ctx.season), ("round", ctx.round),
    ("sourceFile", .str (basename ctx.sourceFile)),
    ("parent_id", .str (pyStr ctx.eventId))]
  .ok (content, rawMeta.filter (fun p => isNotNone p.2))

/-- One iteration of the player loop (embedder.py lines 105-117): skip the
player when its statistics value is falsy (line 106), otherwise stamp the
team fields into a copy of the context and emit one chunk (one add_document
call). -/
def embedPlayer (ctx : MatchCtx) (team_info : Json) (player_data : Json) :
    Except PyErr (Option Chunk) := do
  let stats ← pyGet player_data "statistics" .null
  if truthy stats = false then .ok none
  else do
    let tname ← pyGet team_info "name" .null
    let tid ← pyGet team_info "id" .null
    let c ← create_player_chunk player_data
      { ctx with playerTeamName := tname, playerTeamId := tid }
    .ok (some c)

/-- The player loop of one side: chunks already emitted are kept when an
exception interrupts the loop (the per-file handler at lines 124-127
catches it after the earlier add_document calls have happened); the boolean
records whether the loop finished cleanly. -/
def embedPlayersLoop (ctx : MatchCtx) (team_info : Json) :
    List Json → List Chunk × Bool
  | [] => ([], true)
  | pl :: rest =>
      match embedPlayer ctx team_info pl with
      | .error _ => ([], false)
      | .ok none => embedPlayersLoop ctx team_info rest
      | .ok (some c) =>
          let r := embedPlayersLoop ctx team_info rest
          (c :: r.1, r.2)

/-- `lineups_data.get(team_type, \x7b\x7d).get("players", [])` (embedder.py
line 100). -/
def teamPlayersVal (lineups : Json) (side : String) : Except PyErr Json := do
  let t ← pyGet lineups side (.obj [])
  pyGet t "players" (.arr [])

/-- One side of the teams loop (embedder.py lines 99-117): fetch
`lineups[side]["players"]` with empty defaults, skip the side when the
players value is falsy (line 102), iterate otherwise. -/
def processTeam (ctx : MatchCtx) (lineups team_info : Json) (side : String) :
    List Chunk × Bool :=
  match teamPlayersVal lineups side with
  | .error _ => ([], false)
  | .ok playersVal =>
      if truthy playersVal = false then ([], true)
      else
        match pyIter playersVal with
        | .error _ => ([], false)
        | .ok entries => embedPlayersLoop ctx team_info entries

/-- The per-file context extraction (embedder.py lines 76-94): raw core and
lineups blocks, team info blocks, and the base match context, fetched in
the Python evaluation order. -/
def fileHeader (filePath : String) (raw : Json) :
    Except PyErr (Json × Json × Json × MatchCtx) := do
  let core ← pyGet raw "core" (.obj [])
  let lineups ← pyGet raw "lineups" (.obj [])
  let season_info ← pyGet core "season" (.obj [])
  let hteam ← pyGet core "homeTeam" (.obj [])
  let ateam ← pyGet core "awayTeam" (.obj [])
  let hscore ← pyGet core "homeScore" (.obj [])
  let ascore ← pyGet core "awayScore" (.obj [])
  let eid ← pyGet core "id" .null
  let ts ← pyGet core "startTimestamp" .null
  let syear ← pyGet season_info "year" .null
  let rinfo ← pyGet core "roundInfo" (.obj [])
  let rnd ← pyGet rinfo "round" .null
  let hname ← pyGet hteam "name" .null
  let aname ← pyGet ateam "name" .null
  let hcur ← pyGet hscore "current" .null
  let acur ← pyGet ascore "current" .null
  .ok (lineups, hteam, ateam,
    ({ eventId := eid, matchDate := ts, season := syear, round := rnd,
       homeTeamName := hname, awayTeamName := aname,
       homeScore := hcur, awayScore := acur,
       sourceFile := filePath,
       playerTeamName := .null, playerTeamId := .null } : MatchCtx))

/-- Per-file processing of `process_and_embed_directory` (embedder.py lines
66-121): the chunks handed to add_document for one loaded match file,
together with whether the file completed without an exception. A missing or
falsy `raw` block is skipped cleanly with zero chunks (lines 71-74); home is
processed before away (line 96). -/
def processFile (filePath : String) (matchData : Json) : List Chunk × Bool :=
  match pyGet matchData "raw" (.obj []) with
  | .error _ => ([], false)
  | .ok raw =>
      if truthy raw = false then ([], true)
      else
        match fileHeader filePath raw with
        | .error _ => ([], false)
        | .ok r =>
            let h := processTeam r.2.2.2 r.1 r.2.1 "home"
            if h.2 = false then (h.1, false)
            else
              let a := processTeam r.2.2.2 r.1 r.2.2.1 "away"
              (h.1 ++ a.1, a.2)

/-- The players a match file's raw lineups list for one side (the claim's
"P total players" view, read totally off the persisted tree). -/
def listedPlayers (m : Json) (side : String) : List Json :=
  match jpath m ["raw", "lineups", side, "players"] with
  | some (.arr xs) => xs
  | _ => []

/-- A lineup player entry carrying a non-empty statistics object. -/
def hasNonemptyStatsObj (pl : Json) : Bool :=
  match pl with
  | .obj kvs =>
      match jlookup kvs "statistics" with
      | some (.obj (_ :: _)) => true
      | _ => false
  | _ => false

/-- The claim's S: how many listed players (home and away) carry a
non-empty statistics object. -/
def statPlayerCount (m : Json) : Nat :=
  ((listedPlayers m "home") ++ (listedPlayers m "away")).countP hasNonemptyStatsObj

/-- The code-level players list one side yields: `lineups[side]["players"]`
with the code's defaults, as a total read. -/
def sidePlayers (lineups : Json) (side : String) : List Json :=
  match lineups with
  | .obj kvs =>
      match jlookup kvs side with
      | some (.obj kvs2) =>
          match jlookup kvs2 "players" with
          | some (.arr xs) => xs
          | _ => []
      | _ => []
  | _ => []

theorem embedPlayer_skip {kvs : List (String × Json)} (ctx : MatchCtx)
    (ti : Json) (h : truthy ((jlookup kvs "statistics").getD .null) = false) :
    embedPlayer ctx ti (.obj kvs) = .ok none := by
  unfold embedPlayer
  simp only [pyGet, Bind.bind, Except.bind]
  rw [if_pos h]

theorem embedPlayer_some_of_truthy {kvs : List (String × Json)} {ctx : MatchCtx}
    {ti : Json} {oc : Option Chunk}
    (h : truthy ((jlookup kvs "statistics").getD .null) = true)
    (hep : embedPlayer ctx ti (.obj kvs) = .ok oc) : ∃ c, oc = some c := by
  unfold embedPlayer at hep
  obtain ⟨s, hs, hep⟩ := bind_ok hep
  simp only [pyGet, Except.ok.injEq] at hs
  subst hs
  rw [if_neg (by simp [h])] at hep
  obtain ⟨tname, _, hep⟩ := bind_ok hep
  obtain ⟨tid, _, hep⟩ := bind_ok hep
  obtain ⟨c, _, hep⟩ := bind_ok hep
  injection hep with hq
  exact ⟨c, hq.symm⟩

theorem embedPlayersLoop_count (ctx : MatchCtx) (ti : Json) :
    ∀ entries : List Json,
      (embedPlayersLoop ctx ti entries).2 = true →
      (∀ pl ∈ entries, statsTyped pl = true) →
      (embedPlayersLoop ctx ti entries).1.length =
        entries.countP hasNonemptyStatsObj := by
  intro entries
  induction entries with
  | nil => intro _ _; rfl
  | cons pl rest ih =>
      intro hok ht
      have htpl := ht pl (List.mem_cons_self pl rest)
      have htrest : ∀ p ∈ rest, statsTyped p = true :=
        fun p hp => ht p (List.mem_cons_of_mem pl hp)
      cases pl with
      | obj kvs =>
          cases hst : truthy ((jlookup kvs "statistics").getD .null) with
          | false =>
              have hskip := embedPlayer_skip ctx ti hst
              have hne : hasNonemptyStatsObj (.obj kvs) = false := by
                cases hl : jlookup kvs "statistics" with
                | none => simp [hasNonemptyStatsObj, hl]
                | some v =>
                    cases v with
                    | obj kvs2 =>
                        cases kvs2 with
                        | nil => simp [hasNonemptyStatsObj, hl]
                        | cons a as =>
                            rw [hl] at hst
                            simp [truthy] at hst
                    | null => simp [hasNonemptyStatsObj, hl]
                    | bool b => simp [hasNonemptyStatsObj, hl]
                    | num n => simp [hasNonemptyStatsObj, hl]
                    | str s => simp [hasNonemptyStatsObj, hl]
                    | arr xs => simp [hasNonemptyStatsObj, hl]
              simp only [embedPlayersLoop, hskip] at hok ⊢
              rw [List.countP_cons, hne, ih hok htrest]
              simp
          | true =>
              cases hep : embedPlayer ctx ti (.obj kvs) with
              | error e =>
                  simp only [embedPlayersLoop, hep] at hok
                  exact absurd hok (by simp)
              | ok oc =>
                  obtain ⟨c, hc⟩ := embedPlayer_some_of_truthy hst hep
                  subst hc
                  have hne : hasNonemptyStatsObj (.obj kvs) = true := by
                    rw [statsTyped] at htpl
                    cases hl : jlookup kvs "statistics" with
                    | none =>
                        rw [hl] at hst
                        simp [truthy] at hst
                    | some v =>
                        rw [hl] at hst htpl
                        cases v with
                        | obj kvs2 =>
                            cases kvs2 with
                            | nil => simp [truthy] at hst
                            | cons a as => simp [hasNonemptyStatsObj, hl]
                        | null => simp [truthy] at hst
                        | bool b => simp at htpl
                        | num n => simp at htpl
                        | str s => simp at htpl
                        | arr xs => simp at htpl
                  simp only [embedPlayersLoop, hep] at hok ⊢
                  rw [List.length_cons, List.countP_cons, hne, ih hok htrest]
                  simp
      | null =>
          simp only [embedPlayersLoop,
            show embedPlayer ctx ti .null = .error .attrError from rfl] at hok
          exact absurd hok (by simp)
      | bool b =>
          simp only [embedPlayersLoop,
            show embedPlayer ctx ti (.bool b) = .error .attrError from rfl] at hok
          exact absurd hok (by simp)
      | num n =>
          simp only [embedPlayersLoop,
            show embedPlayer ctx ti (.num n) = .error .attrError from rfl] at hok
          exact absurd hok (by simp)
      | str s =>
          simp only [embedPlayersLoop,
            show embedPlayer ctx ti (.str s) = .error .attrError from rfl] at hok
          exact absurd hok (by simp)
      | arr xs =>
          simp only [embedPlayersLoop,
            show embedPlayer ctx ti (.arr xs) = .error .attrError from rfl] at hok
          exact absurd hok (by simp)

theorem processTeam_count (ctx : MatchCtx) (ti lineups : Json) (side : String)
    (hok : (processTeam ctx lineups ti side).2 = true)
    (ht : ∀ pl ∈ sidePlayers lineups side, statsTyped pl = true) :
    (processTeam ctx lineups ti side).1.length =
      (sidePlayers lineups side).countP hasNonemptyStatsObj := by
  cases lineups with
  | obj kvs =>
      cases hside : jlookup kvs side with
      | none =>
          simp [processTeam, teamPlayersVal, pyGet, Bind.bind, Except.bind,
            hside, jlookup, truthy, sidePlayers]
      | some v =>
          cases v with
          | obj kvs2 =>
              cases hp : jlookup kvs2 "players" with
              | none =>
                  simp [processTeam, teamPlayersVal, pyGet, Bind.bind,
                    Except.bind, hside, hp, truthy, sidePlayers]
              | some pv =>
                  cases pv with
                  | arr xs =>
                      cases xs with
                      | nil =>
                          simp [processTeam, teamPlayersVal, pyGet, Bind.bind,
                            Except.bind, hside, hp, truthy, sidePlayers]
                      | cons x xs2 =>
                          have hpt : processTeam ctx (.obj kvs) ti side =
                              embedPlayersLoop ctx ti (x :: xs2) := by
                            simp [processTeam, teamPlayersVal, pyGet, Bind.bind,
                              Except.bind, hside, hp, truthy, pyIter]
                          have hsp : sidePlayers (.obj kvs) side = x :: xs2 := by
                            simp [sidePlayers, hside, hp]
                          rw [hsp] at ht
                          rw [hpt] at hok ⊢
                          rw [hsp]
                          exact embedPlayersLoop_count ctx ti (x :: xs2) hok ht
                  | null =>
                      simp [processTeam, teamPlayersVal, pyGet, Bind.bind,
                        Except.bind, hside, hp, truthy, sidePlayers]
                  | bool b =>
                      cases b with
                      | false =>
                          simp [processTeam, teamPlayersVal, pyGet, Bind.bind,
                            Except.bind, hside, hp, truthy, sidePlayers]
                      | true =>
                          simp [processTeam, teamPlayersVal, pyGet, Bind.bind,
                            Except.bind, hside, hp, truthy, pyIter] at hok
                  | num n =>
                      by_cases hn : n = 0
                      · subst hn
                        simp [processTeam, teamPlayersVal, pyGet, Bind.bind,
                          Except.bind, hside, hp, truthy, sidePlayers]
                      · simp [processTeam, teamPlayersVal, pyGet, Bind.bind,
                          Except.bind, hside, hp, truthy, hn, pyIter] at hok
                  | str s =>
                      cases s with
                      | mk data =>
                          cases data with
                          | nil =>
                              simp [processTeam, teamPlayersVal, pyGet,
                                Bind.bind, Except.bind, hside, hp, truthy,
                                sidePlayers]
                          | cons ch chs =>
                              have hne2 : (String.mk (ch :: chs) == "") = false := by
                                apply beq_eq_false_iff_ne.mpr
                                intro hcon
                                have hd := congrArg String.data hcon
                                simp at hd
                              simp [processTeam, teamPlayersVal, pyGet,
                                Bind.bind, Except.bind, hside, hp, truthy, bne,
                                hne2, pyIter, String.toList, embedPlayersLoop,
                                embedPlayer] at hok
                  | obj kvs3 =>
                      cases kvs3 with
                      | nil =>
                          simp [processTeam, teamPlayersVal, pyGet, Bind.bind,
                            Except.bind, hside, hp, truthy, sidePlayers]
                      | cons q qs =>
                          simp [processTeam, teamPlayersVal, pyGet, Bind.bind,
                            Except.bind, hside, hp, truthy, pyIter,
                            embedPlayersLoop, embedPlayer] at hok
          | null =>
              simp [processTeam, teamPlayersVal, pyGet, Bind.bind, Except.bind,
                hside] at hok
          | bool b =>
              simp [processTeam, teamPlayersVal, pyGet, Bind.bind, Except.bind,
                hside] at hok
          | num n =>
              simp [processTeam, teamPlayersVal, pyGet, Bind.bind, Except.bind,
                hside] at hok
          | str s =>
              simp [processTeam, teamPlayersVal, pyGet, Bind.bind, Except.bind,
                hside] at hok
          | arr xs =>
              simp [processTeam, teamPlayersVal, pyGet, Bind.bind, Except.bind,
                hside] at hok
  | null =>
      simp [processTeam, teamPlayersVal, pyGet, Bind.bind, Except.bind] at hok
  | bool b =>
      simp [processTeam, teamPlayersVal, pyGet, Bind.bind, Except.bind] at hok
  | num n =>
      simp [processTeam, teamPlayersVal, pyGet, Bind.bind, Except.bind] at hok
  | str s =>
      simp [processTeam, teamPlayersVal, pyGet, Bind.bind, Except.bind] at hok
  | arr xs =>
      simp [processTeam, teamPlayersVal, pyGet, Bind.bind, Except.bind] at hok

theorem listed_tail_eq (lv : Json) (side : String) :
    (match jpath lv [side, "players"] with
     | some (.arr xs) => xs
     | _ => []) = sidePlayers lv side := by
  cases lv with
  | obj lkvs =>
      cases hs : jlookup lkvs side with
      | none => simp [jpath, hs, sidePlayers, Option.bind]
      | some sv =>
          cases sv with
          | obj skvs =>
              cases hp : jlookup skvs "players" with
              | none => simp [jpath, hs, hp, sidePlayers, Option.bind]
              | some pv =>
                  cases pv <;> simp [jpath, hs, hp, sidePlayers, Option.bind]
          | null => simp [jpath, hs, sidePlayers, Option.bind]
          | bool b => simp [jpath, hs, sidePlayers, Option.bind]
          | num n => simp [jpath, hs, sidePlayers, Option.bind]
          | str s => simp [jpath, hs, sidePlayers, Option.bind]
          | arr xs => simp [jpath, hs, sidePlayers, Option.bind]
  | null => simp [jpath, sidePlayers, Option.bind]
  | bool b => simp [jpath, sidePlayers, Option.bind]
  | num n => simp [jpath, sidePlayers, Option.bind]
  | str s => simp [jpath, sidePlayers, Option.bind]
  | arr xs => simp [jpath, sidePlayers, Option.bind]

theorem listed_eq_side {mkvs rvkvs : List (String × Json)}
    (hr : jlookup mkvs "raw" = some (.obj rvkvs)) (side : String) :
    listedPlayers (.obj mkvs) side =
      sidePlayers ((jlookup rvkvs "lineups").getD (.obj [])) side := by
  unfold listedPlayers
  cases hl : jlookup rvkvs "lineups" with
  | none =>
      simp [jpath, hr, hl, Option.bind, sidePlayers, jlookup]
  | some lv =>
      have hstep : jpath (.obj mkvs) ["raw", "lineups", side, "players"]
          = jpath lv [side, "players"] := by
        simp [jpath, hr, hl, Option.bind]
      rw [hstep]
      simp only [Option.getD]
      exact listed_tail_eq lv side

/-- C7: for every persisted match file that the chunk-building pass
completes without an exception and whose listed lineup players carry
well-typed statistics fields (absent, null, or an object — the shape the
claim presupposes when it counts "players carrying a non-empty statistics
object"), the pass emits exactly one chunk (one add_document call) per
player carrying a non-empty statistics object, across home and away,
including substitutes; players without recorded statistics produce no
chunk. -/
theorem chunk_builder_one_chunk_per_stat_player (filePath : String) (m : Json)
    (hok : (processFile filePath m).2 = true)
    (ht : ∀ pl ∈ listedPlayers m "home" ++ listedPlayers m "away",
      statsTyped pl = true) :
    (processFile filePath m).1.length = statPlayerCount m := by
  cases m with
  | obj mkvs =>
      cases hr : jlookup mkvs "raw" with
      | none =>
          simp [processFile, pyGet, hr, truthy, statPlayerCount, listedPlayers,
            jpath, Option.bind, jlookup]
      | some rv =>
          cases htr : truthy rv with
          | false =>
              have h0 : statPlayerCount (.obj mkvs) = 0 := by
                cases rv with
                | obj rkvs =>
                    cases rkvs with
                    | nil =>
                        simp [statPlayerCount, listedPlayers, jpath, hr,
                          Option.bind, jlookup]
                    | cons a as => simp [truthy] at htr
                | null =>
                    simp [statPlayerCount, listedPlayers, jpath, hr, Option.bind]
                | bool b =>
                    simp [statPlayerCount, listedPlayers, jpath, hr, Option.bind]
                | num n =>
                    simp [statPlayerCount, listedPlayers, jpath, hr, Option.bind]
                | str s =>
                    simp [statPlayerCount, listedPlayers, jpath, hr, Option.bind]
                | arr xs =>
                    simp [statPlayerCount, listedPlayers, jpath, hr, Option.bind]
              rw [h0]
              simp [processFile, pyGet, hr, htr]
          | true =>
              cases hH : fileHeader filePath rv with
              | error e =>
                  simp [processFile, pyGet, hr, htr, hH] at hok
              | ok r =>
                  have hpf : processFile filePath (.obj mkvs) =
                      (let h := processTeam r.2.2.2 r.1 r.2.1 "home"
                       if h.2 = false then (h.1, false)
                       else
                         let a := processTeam r.2.2.2 r.1 r.2.2.1 "away"
                         (h.1 ++ a.1, a.2)) := by
                    simp [processFile, pyGet, hr, htr, hH]
                  unfold fileHeader at hH
                  obtain ⟨core, hcore, hH⟩ := bind_ok hH
                  obtain ⟨lus, hlus, hH⟩ := bind_ok hH
                  obtain ⟨sinfo, _, hH⟩ := bind_ok hH
                  obtain ⟨hteamv, _, hH⟩ := bind_ok hH
                  obtain ⟨ateamv, _, hH⟩ := bind_ok hH
                  obtain ⟨hscorev, _, hH⟩ := bind_ok hH
                  obtain ⟨ascorev, _, hH⟩ := bind_ok hH
                  obtain ⟨eid, _, hH⟩ := bind_ok hH
                  obtain ⟨ts, _, hH⟩ := bind_ok hH
                  obtain ⟨syear, _, hH⟩ := bind_ok hH
                  obtain ⟨rinfo, _, hH⟩ := bind_ok hH
                  obtain ⟨rnd, _, hH⟩ := bind_ok hH
                  obtain ⟨hname, _, hH⟩ := bind_ok hH
                  obtain ⟨aname, _, hH⟩ := bind_ok hH
                  obtain ⟨hcur, _, hH⟩ := bind_ok hH
                  obtain ⟨acur, _, hH⟩ := bind_ok hH
                  injection hH with hreq
                  subst hreq
                  cases rv with
                  | obj rvkvs =>
                      simp only [pyGet, Except.ok.injEq] at hlus
                      have hlh : listedPlayers (.obj mkvs) "home" =
                          sidePlayers lus "home" := by
                        rw [listed_eq_side hr "home", hlus]
                      have hla : listedPlayers (.obj mkvs) "away" =
                          sidePlayers lus "away" := by
                        rw [listed_eq_side hr "away", hlus]
                      rw [hpf] at hok ⊢
                      cases hh2 : (processTeam
                          (Prod.snd (Prod.snd (Prod.snd (lus, hteamv, ateamv,
                            ({ eventId := eid, matchDate := ts, season := syear,
                               round := rnd, homeTeamName := hname,
                               awayTeamName := aname, homeScore := hcur,
                               awayScore := acur, sourceFile := filePath,
                               playerTeamName := .null,
                               playerTeamId := .null } : MatchCtx)))))
                          lus hteamv "home").2 with
                      | false =>
                          simp only [hh2] at hok
                          simp at hok
                      | true =>
                          simp only [hh2] at hok ⊢
                          simp only [Bool.true_eq_false, if_false] at hok ⊢
                          rw [List.length_append]
                          have hhome := processTeam_count _ hteamv lus "home"
                            hh2 (by
                              rw [← hlh]
                              intro pl hpl
                              exact ht pl (List.mem_append_left _ hpl))
                          have haway := processTeam_count _ ateamv lus "away"
                            hok (by
                              rw [← hla]
                              intro pl hpl
                              exact ht pl (List.mem_append_right _ hpl))
                          rw [hhome, haway, statPlayerCount, List.countP_append,
                            hlh, hla]
                  | null => simp [pyGet] at hcore
                  | bool b => simp [pyGet] at hcore
                  | num n => simp [pyGet] at hcore
                  | str s => simp [pyGet] at hcore
                  | arr xs => simp [pyGet] at hcore
  | null => simp [processFile, pyGet] at hok
  | bool b => simp [processFile, pyGet] at hok
  | num n => simp [processFile, pyGet] at hok
  | str s => simp [processFile, pyGet] at hok
  | arr xs => simp [processFile, pyGet] at hok

/-- Scenario C match file: two home lineup players — one with a non-empty
statistics object, one without — and an empty away players list. -/
def scenarioCFile : Json :=
  .obj [("raw", .obj [
    ("core", .obj []),
    ("lineups", .obj [
      ("home", .obj [("players", .arr [
        .obj [("player", .obj [("name", .str "Joao")]),
              ("statistics", .obj [("rating", .num 7)])],
        .obj [("player", .obj [("name", .str "Pedro")])]])]),
      ("away", .obj [("players", .arr [])])])])]

/-- Witness for `chunk_builder_one_chunk_per_stat_player` on the scenario-C
file: the pass completes, the statistics fields are well-typed, and exactly
one chunk is emitted for the one statistic-bearing player. -/
theorem chunk_builder_one_chunk_per_stat_player_witness :
    (processFile "f.json" scenarioCFile).2 = true ∧
      (∀ pl ∈ listedPlayers scenarioCFile "home" ++
          listedPlayers scenarioCFile "away", statsTyped pl = true) ∧
      (processFile "f.json" scenarioCFile).1.length =
        statPlayerCount scenarioCFile :=
  ⟨by decide, by decide,
    chunk_builder_one_chunk_per_stat_player "f.json" scenarioCFile
      (by decide) (by decide)⟩

end Sofa
